import Mathlib

/-!
Shallow embedding of `toggle_async_sugar.rs` (rust-analyzer ide-assists):
the bidirectional assist pair `sugar_impl_future_into_async` /
`desugar_async_into_impl_future`.  Syntax nodes are modelled as read-only
views carrying their text ranges (absolute offsets into the source buffer)
and, where the code reads it, their verbatim source text.  The semantic
resolver and the famous-defs registry are external collaborators and are
modelled as function-valued fields of the assist context.  Edit plans are
lists of delete/replace/insert operations over absolute offsets; applying
a plan sorts the operations by position (ranges are all relative to the
original buffer, as in the real edit builder) and rewrites the text.
-/

namespace ToggleAsyncSugar

/-- Source text, as a list of characters (so that edit application has a
clean list semantics). -/
abbrev Str := List Char

/-- An absolute text range `[start, stop)` in the source buffer. -/
structure TextRange where
  start : Nat
  stop : Nat
  deriving DecidableEq, Repr

/-- The only distinction between token kinds the code makes is
`SyntaxKind::WHITESPACE` versus everything else. -/
inductive SyntaxKind where
  | WHITESPACE
  | OTHER
  deriving DecidableEq, Repr

/-- A sibling element (node-or-token) as seen by `next_sibling_or_token`:
its kind tag and its text range. -/
structure SibElem where
  kind : SyntaxKind
  range : TextRange
  deriving DecidableEq, Repr

/-- A token view: its range and its next sibling element (if any),
as used by `following_whitespace`. -/
structure Token where
  range : TextRange
  nextSibling : Option SibElem
  deriving DecidableEq, Repr

mutual

/-- View of `ast::Type`, restricted to the shapes the code distinguishes:
`TupleType` (with its field list, inspected only for emptiness),
`PathType` (with its optional path), `ImplTraitType` (with its optional
type-bound list), and every other type shape collapsed into `otherType`.
Each node carries its text range and its verbatim source text. -/
inductive AstTy where
  | tupleType (fields : List AstTy) (range : TextRange) (text : Str)
  | pathType (path : Option Path) (range : TextRange) (text : Str)
  | implTraitType (boundList : Option (List TypeBound)) (range : TextRange) (text : Str)
  | otherType (range : TextRange) (text : Str)

/-- View of `ast::TypeBound`: its `ty()` accessor result (`none` for
lifetime bounds and other bound kinds without a type). -/
inductive TypeBound where
  | mk (ty : Option AstTy)

/-- View of `ast::Path`: its segment list. -/
inductive Path where
  | mk (segments : List PathSegment)

/-- View of `ast::PathSegment`: its optional generic-argument list. -/
inductive PathSegment where
  | mk (genericArgList : Option GenericArgList)

/-- View of `ast::GenericArgList`: its argument list. -/
inductive GenericArgList where
  | mk (args : List GenericArg)

/-- View of `ast::GenericArg`: an associated-type argument (carrying the
result of its `ty()` accessor) or any other argument kind. -/
inductive GenericArg where
  | assocTypeArg (ty : Option AstTy)
  | otherArg

end

/-- `syntax().text_range()` of a type node. -/
def AstTy.range : AstTy → TextRange
  | .tupleType _ r _ => r
  | .pathType _ r _ => r
  | .implTraitType _ r _ => r
  | .otherType r _ => r

/-- `syntax().text()` of a type node: its verbatim source text. -/
def AstTy.text : AstTy → Str
  | .tupleType _ _ s => s
  | .pathType _ _ s => s
  | .implTraitType _ _ s => s
  | .otherType _ s => s

/-- `TypeBound::ty()`. -/
def TypeBound.ty : TypeBound → Option AstTy
  | .mk t => t

/-- `Path::segments()`. -/
def Path.segments : Path → List PathSegment
  | .mk s => s

/-- `PathSegment::generic_arg_list()`. -/
def PathSegment.genericArgList : PathSegment → Option GenericArgList
  | .mk g => g

/-- `GenericArgList::generic_args()`. -/
def GenericArgList.genericArgs : GenericArgList → List GenericArg
  | .mk a => a

/-- View of `ast::RetType`: the range of the whole `-> T` clause and the
result of its `ty()` accessor (`none` when the type is malformed). -/
structure RetType where
  range : TextRange
  ty : Option AstTy

/-- View of `ast::ParamList`: its closing-paren token and the param-list
node's next sibling element (read by `following_whitespace`). -/
structure ParamList where
  rParen : Option Token
  nextSibling : Option SibElem

/-- View of `ast::Visibility`: only its text range is read. -/
structure Visibility where
  range : TextRange

/-- View of `ast::Fn`: exactly the accessors the two assists read. -/
structure Fn where
  range : TextRange
  asyncToken : Option Token
  constToken : Option Token
  visibility : Option Visibility
  paramList : Option ParamList
  retType : Option RetType

/-- A trait definition, identified by definition identity (not name). -/
abbrev TraitDef := Nat

/-- A semantic scope identifier (stands for `SemanticsScope`/its crate). -/
abbrev ScopeId := Nat

/-- The assist context: the function found at the cursor offset
(`ctx.find_node_at_offset()`), and the external semantic collaborators:
`sema.resolve_trait`, `sema.scope`, and the famous-defs registry lookup
`FamousDefs(sema, krate).core_future_Future()` (keyed by the scope the
crate was taken from). -/
structure AssistContext where
  findFnAtOffset : Option Fn
  resolveTrait : Path → Option TraitDef
  scopeOf : Path → Option ScopeId
  coreFutureFuture : ScopeId → Option TraitDef

/-- One text edit operation, over absolute offsets of the original buffer. -/
inductive EditOp where
  | delete (range : TextRange)
  | replace (range : TextRange) (text : Str)
  | insert (offset : Nat) (text : Str)
  deriving DecidableEq, Repr

/-- The result of `acc.add`: assist id, label, target range and the edit
plan built by the builder closure, in builder-call order. -/
structure Assist where
  id : String
  label : String
  target : TextRange
  edits : List EditOp
  deriving DecidableEq, Repr

/-- `following_whitespace`: look at the next sibling element; if it is a
whitespace token return its range, else `none`. -/
def following_whitespace (next : Option SibElem) : Option TextRange :=
  match next with
  | none => none
  | some e => if e.kind = SyntaxKind.WHITESPACE then some e.range else none

/-- `unwrap_future_output`: last path segment, its generic-arg list, its
first generic argument; that argument must be an associated-type argument,
whose `ty()` is returned. -/
def unwrap_future_output (path : Path) : Option AstTy :=
  match path.segments.getLast? with
  | none => none
  | some future_trait =>
    match future_trait.genericArgList with
    | none => none
    | some assoc_list =>
      match assoc_list.genericArgs.head? with
      | none => none
      | some (GenericArg.assocTypeArg output_type) => output_type
      | some GenericArg.otherArg => none

/-- The closure of `bounds().filter_map(..)`: a bound contributes its path
iff its `ty()` is a path type holding a path. -/
def pathOfBound (bound : TypeBound) : Option Path :=
  match bound.ty with
  | some (AstTy.pathType p _ _) => p
  | _ => none

/-- The main-bound selection of `sugar_impl_future_into_async`:
`bounds().filter_map(|bound| match bound.ty() { Some(Type::PathType(p)) =>
p.path(), _ => None }).next()`. -/
def pathBoundHead (bounds : List TypeBound) : Option Path :=
  (bounds.filterMap pathOfBound).head?

/-- The builder closure of `sugar_impl_future_into_async`: if the output
type is a zero-field tuple, delete the return-type clause (extended left
over the whitespace run following the param list, when present); otherwise
replace the impl-trait node's range with the output type's verbatim text.
Then insert the `async` keyword: after the visibility with a leading
space, or at the function start with a trailing space. -/
def mkSugarEdits (function : Fn) (ret_type : RetType) (implRange : TextRange)
    (future_output : AstTy) : List EditOp :=
  let replaceOp := EditOp.replace implRange future_output.text
  let firstOp :=
    match future_output with
    | AstTy.tupleType fields _ _ =>
      if fields.head?.isNone then
        let ret_type_range := ret_type.range
        let whitespace_range :=
          function.paramList.bind fun params => following_whitespace params.nextSibling
        let ret_type_range :=
          match whitespace_range with
          | some w => TextRange.mk w.start ret_type_range.stop
          | none => ret_type_range
        EditOp.delete ret_type_range
      else replaceOp
    | _ => replaceOp
  let placeAndKw :=
    match function.visibility with
    | some vis => (vis.range.stop, " async".data)
    | none => (function.range.start, "async ".data)
  [firstOp, EditOp.insert placeAndKw.1 placeAndKw.2]

/-- The applicability pipeline of `sugar_impl_future_into_async`, in source
order: function at offset; no `async` token; a return-type clause; no
`const` token; the return type is an `ImplTraitType` with a bound list;
the first path bound; trait resolution; scope; famous-defs lookup;
identity comparison; output extraction.  Returns the data handed to the
builder closure. -/
def sugarCheck (ctx : AssistContext) : Option (Fn × RetType × TextRange × AstTy) :=
  match ctx.findFnAtOffset with
  | none => none
  | some function =>
  if function.asyncToken.isSome then none else
  match function.retType with
  | none => none
  | some ret_type =>
  if function.constToken.isSome then none else
  match ret_type.ty with
  | some (AstTy.implTraitType boundList implRange _) =>
    (match boundList with
     | none => none
     | some bounds =>
       match pathBoundHead bounds with
       | none => none
       | some main_trait_path =>
       match ctx.resolveTrait main_trait_path with
       | none => none
       | some trait_type =>
       match ctx.scopeOf main_trait_path with
       | none => none
       | some scope =>
       match ctx.coreFutureFuture scope with
       | none => none
       | some fut =>
       if trait_type ≠ fut then none else
       match unwrap_future_output main_trait_path with
       | none => none
       | some future_output => some (function, ret_type, implRange, future_output))
  | _ => none

/-- `sugar_impl_future_into_async`: the applicability check followed by
`acc.add` with the edit plan of the builder closure. -/
def sugar_impl_future_into_async (ctx : AssistContext) : Option Assist :=
  match sugarCheck ctx with
  | none => none
  | some (function, ret_type, implRange, future_output) =>
    some { id := "sugar_impl_future_into_async",
           label := "Convert `impl Future` into async",
           target := function.range,
           edits := mkSugarEdits function ret_type implRange future_output }

/-- The builder closure of `desugar_async_into_impl_future`: delete the
`async` token (extended right over the following whitespace run, when
present); then, if a return type existed, replace the type's range with
`impl Future<Output = T>` where `T` is the type's verbatim text, else
insert ` -> impl Future<Output = ()>` after the closing paren. -/
def mkDesugarEdits (async_token : Token) (rparen : Token)
    (return_type : Option AstTy) : List EditOp :=
  let async_range := async_token.range
  let async_range :=
    match following_whitespace async_token.nextSibling with
    | some w => TextRange.mk async_range.start w.stop
    | none => async_range
  let secondOp :=
    match return_type with
    | some ret_type =>
      EditOp.replace ret_type.range
        ("impl Future<Output = ".data ++ ret_type.text ++ ">".data)
    | none => EditOp.insert rparen.range.stop " -> impl Future<Output = ()>".data
  [EditOp.delete async_range, secondOp]

/-- `desugar_async_into_impl_future`: function at offset; an `async`
token; the param list's closing paren; if a return-type clause exists its
type must be well-formed (`ty()` succeeds), if absent the result type is
treated as `()`; then `acc.add` with the builder closure's plan. -/
def desugar_async_into_impl_future (ctx : AssistContext) : Option Assist :=
  match ctx.findFnAtOffset with
  | none => none
  | some function =>
  match function.asyncToken with
  | none => none
  | some async_token =>
  match function.paramList with
  | none => none
  | some param_list =>
  match param_list.rParen with
  | none => none
  | some rparen =>
  match function.retType with
  | some ret_type =>
    (match ret_type.ty with
     | none => none
     | some t =>
       some { id := "desugar_async_into_impl_future",
              label := "Convert async into `impl Future`",
              target := function.range,
              edits := mkDesugarEdits async_token rparen (some t) })
  | none =>
    some { id := "desugar_async_into_impl_future",
           label := "Convert async into `impl Future`",
           target := function.range,
           edits := mkDesugarEdits async_token rparen none }

/-- Position key of an edit operation (start of its range / its offset). -/
def EditOp.pos : EditOp → Nat
  | .delete r => r.start
  | .replace r _ => r.start
  | .insert o _ => o

/-- Insert an operation into a list sorted by descending position. -/
def insertDesc (op : EditOp) : List EditOp → List EditOp
  | [] => [op]
  | o :: rest => if o.pos ≤ op.pos then op :: o :: rest else o :: insertDesc op rest

/-- Sort an edit plan by descending position. -/
def sortEditsDesc (ops : List EditOp) : List EditOp :=
  ops.foldr insertDesc []

/-- Apply one operation to the text (range endpoints are offsets into
`text`). -/
def applyOp (text : Str) : EditOp → Str
  | .delete r => text.take r.start ++ text.drop r.stop
  | .replace r s => text.take r.start ++ s ++ text.drop r.stop
  | .insert o s => text.take o ++ s ++ text.drop o

/-- Apply an edit plan atomically: all ranges refer to the original
buffer, so non-overlapping operations are applied right-to-left. -/
def applyEdits (text : Str) (ops : List EditOp) : Str :=
  (sortEditsDesc ops).foldl applyOp text

/-- Is this type a zero-field tuple (`()`), the empty-result marker? -/
def AstTy.isEmptyTuple : AstTy → Bool
  | .tupleType fields _ _ => fields.isEmpty
  | _ => false

/-- Is this (optional) return type an opaque-bounded type with at least
one bound? -/
def opaqueWithBound : Option AstTy → Bool
  | some (AstTy.implTraitType (some (_ :: _)) _ _) => true
  | _ => false

/-- Start offset of the sugar delete edit: the start of the whitespace run
following the param list when there is one, else the start of the
return-type clause. -/
def sugarDeleteStart (function : Fn) (ret_type : RetType) : Nat :=
  match function.paramList.bind fun params => following_whitespace params.nextSibling with
  | some w => w.start
  | none => ret_type.range.start

/-- The range deleted by the desugar plan: the `async` token extended
right over the following whitespace run when there is one. -/
def asyncDeleteRange (async_token : Token) : TextRange :=
  match following_whitespace async_token.nextSibling with
  | some w => TextRange.mk async_token.range.start w.stop
  | none => async_token.range

/-- An assist context whose resolver resolves every path to trait `0` and
whose famous-defs registry names trait `0` canonical: the happy path for
the identity comparison. -/
def happyCtx (fn : Fn) : AssistContext :=
  { findFnAtOffset := some fn
    resolveTrait := fun _ => some 0
    scopeOf := fun _ => some 0
    coreFutureFuture := fun _ => some 0 }

/-- Run the sugar assist on a function view under `happyCtx` and apply
its plan to the given source text. -/
def sugarResult (fn : Fn) (text : Str) : Option Str :=
  (sugar_impl_future_into_async (happyCtx fn)).map fun a => applyEdits text a.edits

/-- Run the desugar assist on a function view under `happyCtx` and apply
its plan to the given source text. -/
def desugarResult (fn : Fn) (text : Str) : Option Str :=
  (desugar_async_into_impl_future (happyCtx fn)).map fun a => applyEdits text a.edits

/-- A path with a single plain segment (no generic arguments). -/
def simplePath : Path := Path.mk [PathSegment.mk none]

/-- A one-segment path whose segment carries `<Output = output>` as its
generic-argument list, as in `Future<Output = T>`. -/
def futurePathOf (output : AstTy) : Path :=
  Path.mk [PathSegment.mk (some (GenericArgList.mk [GenericArg.assocTypeArg (some output)]))]

/-! ### Concrete parsed views

Each `...Text` is a source buffer; the accompanying `...Fn` is the syntax
view of that buffer, with ranges computed from the text by hand (the
parser itself is an external collaborator). -/

/-- Buffer: `pub(crate) unsafe fn foo() -> impl Future<Output = usize>;`. -/
def pubUnsafeText : Str := "pub(crate) unsafe fn foo() -> impl Future<Output = usize>;".data

/-- The `usize` node at `[51,56)` of `pubUnsafeText`. -/
def pubUnsafeOutputTy : AstTy := AstTy.pathType (some simplePath) ⟨51, 56⟩ "usize".data

/-- The `impl Future<Output = usize>` node at `[30,57)` of `pubUnsafeText`. -/
def pubUnsafeImplTy : AstTy :=
  AstTy.implTraitType
    (some [TypeBound.mk (some (AstTy.pathType (some (futurePathOf pubUnsafeOutputTy))
      ⟨35, 57⟩ "Future<Output = usize>".data))])
    ⟨30, 57⟩ "impl Future<Output = usize>".data

/-- View of `pubUnsafeText`: visibility `[0,10)`, params `[24,26)`
followed by a whitespace run `[26,27)`, return clause `[27,57)`. -/
def pubUnsafeFn : Fn :=
  { range := ⟨0, 58⟩
    asyncToken := none
    constToken := none
    visibility := some ⟨⟨0, 10⟩⟩
    paramList := some { rParen := some ⟨⟨25, 26⟩, some ⟨SyntaxKind.WHITESPACE, ⟨26, 27⟩⟩⟩
                        nextSibling := some ⟨SyntaxKind.WHITESPACE, ⟨26, 27⟩⟩ }
    retType := some { range := ⟨27, 57⟩, ty := some pubUnsafeImplTy } }

/-- Buffer: `fn foo() -> impl Future<Output = usize> + Debug;`. -/
def debugBoundText : Str := "fn foo() -> impl Future<Output = usize> + Debug;".data

/-- The `usize` node at `[33,38)` of `debugBoundText`. -/
def debugOutputTy : AstTy := AstTy.pathType (some simplePath) ⟨33, 38⟩ "usize".data

/-- The `impl Future<Output = usize> + Debug` node at `[12,47)`: two
bounds, the `Future` path bound first, then the `Debug` path bound. -/
def debugImplTy : AstTy :=
  AstTy.implTraitType
    (some [TypeBound.mk (some (AstTy.pathType (some (futurePathOf debugOutputTy))
             ⟨17, 39⟩ "Future<Output = usize>".data)),
           TypeBound.mk (some (AstTy.pathType (some simplePath) ⟨42, 47⟩ "Debug".data))])
    ⟨12, 47⟩ "impl Future<Output = usize> + Debug".data

/-- View of `debugBoundText`: params `[6,8)` followed by whitespace
`[8,9)`, return clause `[9,47)`. -/
def debugBoundFn : Fn :=
  { range := ⟨0, 48⟩
    asyncToken := none
    constToken := none
    visibility := none
    paramList := some { rParen := some ⟨⟨7, 8⟩, none⟩
                        nextSibling := some ⟨SyntaxKind.WHITESPACE, ⟨8, 9⟩⟩ }
    retType := some { range := ⟨9, 47⟩, ty := some debugImplTy } }

/-- Buffer: `async fn foo() -> usize;`. -/
def asyncUsizeText : Str := "async fn foo() -> usize;".data

/-- View of `asyncUsizeText`: `async` `[0,5)` followed by whitespace
`[5,6)`, params `[12,14)`, return clause `[15,23)` with type `[18,23)`. -/
def asyncUsizeFn : Fn :=
  { range := ⟨0, 24⟩
    asyncToken := some ⟨⟨0, 5⟩, some ⟨SyntaxKind.WHITESPACE, ⟨5, 6⟩⟩⟩
    constToken := none
    visibility := none
    paramList := some { rParen := some ⟨⟨13, 14⟩, none⟩
                        nextSibling := some ⟨SyntaxKind.WHITESPACE, ⟨14, 15⟩⟩ }
    retType := some { range := ⟨15, 23⟩
                      ty := some (AstTy.pathType (some simplePath) ⟨18, 23⟩ "usize".data) } }

/-- Buffer: `async fn foo() -> () {}`. -/
def asyncUnitRetText : Str := "async fn foo() -> () {}".data

/-- View of `asyncUnitRetText`: return clause `[15,20)` whose type is the
zero-field tuple at `[18,20)`. -/
def asyncUnitRetFn : Fn :=
  { range := ⟨0, 23⟩
    asyncToken := some ⟨⟨0, 5⟩, some ⟨SyntaxKind.WHITESPACE, ⟨5, 6⟩⟩⟩
    constToken := none
    visibility := none
    paramList := some { rParen := some ⟨⟨13, 14⟩, none⟩
                        nextSibling := some ⟨SyntaxKind.WHITESPACE, ⟨14, 15⟩⟩ }
    retType := some { range := ⟨15, 20⟩
                      ty := some (AstTy.tupleType [] ⟨18, 20⟩ "()".data) } }

/-- Buffer: `fn foo() -> impl Future<Output = ()> {}`. -/
def implUnitText : Str := "fn foo() -> impl Future<Output = ()> {}".data

/-- The `()` node at `[33,35)` of `implUnitText`. -/
def implUnitOutputTy : AstTy := AstTy.tupleType [] ⟨33, 35⟩ "()".data

/-- View of `implUnitText`: params `[6,8)` followed by whitespace `[8,9)`,
return clause `[9,36)`, impl-trait node `[12,36)`. -/
def implUnitFn : Fn :=
  { range := ⟨0, 39⟩
    asyncToken := none
    constToken := none
    visibility := none
    paramList := some { rParen := some ⟨⟨7, 8⟩, none⟩
                        nextSibling := some ⟨SyntaxKind.WHITESPACE, ⟨8, 9⟩⟩ }
    retType := some { range := ⟨9, 36⟩
                      ty := some (AstTy.implTraitType
                        (some [TypeBound.mk (some (AstTy.pathType
                          (some (futurePathOf implUnitOutputTy))
                          ⟨17, 36⟩ "Future<Output = ()>".data))])
                        ⟨12, 36⟩ "impl Future<Output = ()>".data) } }

/-- Buffer: `async fn foo() {}`. -/
def asyncNoRetText : Str := "async fn foo() {}".data

/-- View of `asyncNoRetText`: no return clause; params `[12,14)` followed
by whitespace `[14,15)`. -/
def asyncNoRetFn : Fn :=
  { range := ⟨0, 17⟩
    asyncToken := some ⟨⟨0, 5⟩, some ⟨SyntaxKind.WHITESPACE, ⟨5, 6⟩⟩⟩
    constToken := none
    visibility := none
    paramList := some { rParen := some ⟨⟨13, 14⟩, none⟩
                        nextSibling := some ⟨SyntaxKind.WHITESPACE, ⟨14, 15⟩⟩ }
    retType := none }

/-! ### A parametric family of canonically-spaced signatures

A signature in canonical single-space form decomposes as
`[V ]async <mid>) -> T<body>` (or `[V ]async <mid>)<body>` with no return
clause): an optional visibility text `V` followed by one space, the
`async` keyword followed by one whitespace-run of one space, an arbitrary
stretch `mid` covering further qualifiers, the name, generics and the
parameter list up to (excluding) the closing paren, the return clause
with single spaces around the arrow, and an arbitrary tail `body` (the
block or `;`, where-clauses included).  The caller supplies the parse of
the result type text `T` as a function from the range it occupies to its
node. -/

/-- The text a visibility qualifier contributes: the visibility followed
by one space, or nothing. -/
def visPrefix : Option Str → Str
  | some v => v ++ " ".data
  | none => []

/-- Buffer: `[V ]async <mid>) -> T<body>`. -/
def asyncSigText (vis : Option Str) (mid T body : Str) : Str :=
  visPrefix vis ++ "async ".data ++ mid ++ ") -> ".data ++ T ++ body

/-- The range the result type text occupies in `asyncSigText`. -/
def asyncSigTyRange (vis : Option Str) (mid T : Str) : TextRange :=
  ⟨(visPrefix vis).length + 11 + mid.length,
   (visPrefix vis).length + 11 + mid.length + T.length⟩

/-- View of `asyncSigText vis mid T body` (`n` is `T.length`; `tyT` is
the parse of `T` over `asyncSigTyRange`): `async` right after the
visibility prefix with a one-space whitespace run after it, the closing
paren right after `mid` with a one-space run after it, then the return
clause. -/
def asyncSigFn (vis : Option Str) (mid body : Str) (tyT : AstTy) (n : Nat) : Fn :=
  { range := ⟨0, (visPrefix vis).length + 11 + mid.length + n + body.length⟩
    asyncToken := some ⟨⟨(visPrefix vis).length, (visPrefix vis).length + 5⟩,
      some ⟨SyntaxKind.WHITESPACE,
        ⟨(visPrefix vis).length + 5, (visPrefix vis).length + 6⟩⟩⟩
    constToken := none
    visibility := vis.map fun v => ⟨⟨0, v.length⟩⟩
    paramList := some { rParen := some ⟨⟨(visPrefix vis).length + 6 + mid.length,
                          (visPrefix vis).length + 7 + mid.length⟩, none⟩
                        nextSibling := some ⟨SyntaxKind.WHITESPACE,
                          ⟨(visPrefix vis).length + 7 + mid.length,
                           (visPrefix vis).length + 8 + mid.length⟩⟩ }
    retType := some { range := ⟨(visPrefix vis).length + 8 + mid.length,
                        (visPrefix vis).length + 11 + mid.length + n⟩
                      ty := some tyT } }

/-- Buffer: `[V ]<mid>) -> impl Future<Output = T><body>`, the desugared
form of `asyncSigText`. -/
def desugaredSigText (vis : Option Str) (mid T body : Str) : Str :=
  visPrefix vis ++ mid ++ ") -> ".data ++ "impl Future<Output = ".data
    ++ T ++ ">".data ++ body

/-- The range the result type text occupies in `desugaredSigText`. -/
def desugaredSigTyRange (vis : Option Str) (mid T : Str) : TextRange :=
  ⟨(visPrefix vis).length + mid.length + 26,
   (visPrefix vis).length + mid.length + 26 + T.length⟩

/-- The return-type clause view of `desugaredSigText`: the clause starts
at the arrow, the impl-trait node spans `impl Future<Output = T>`, and
its single path bound spans `Future<Output = T>` and carries the parse
`outTy` of `T`. -/
def desugaredSigRetType (vis : Option Str) (mid T : Str) (outTy : AstTy) : RetType :=
  { range := ⟨(visPrefix vis).length + mid.length + 2,
      (visPrefix vis).length + mid.length + 27 + T.length⟩
    ty := some (AstTy.implTraitType
      (some [TypeBound.mk (some (AstTy.pathType (some (futurePathOf outTy))
        ⟨(visPrefix vis).length + mid.length + 10,
         (visPrefix vis).length + mid.length + 27 + T.length⟩
        ("Future<Output = ".data ++ T ++ ">".data)))])
      ⟨(visPrefix vis).length + mid.length + 5,
       (visPrefix vis).length + mid.length + 27 + T.length⟩
      ("impl Future<Output = ".data ++ T ++ ">".data)) }

/-- View of `desugaredSigText vis mid T body`: the closing paren right
after `mid` with a one-space whitespace run after it, then the
return-type clause `desugaredSigRetType`. -/
def desugaredSigFn (vis : Option Str) (mid T body : Str) (outTy : AstTy) : Fn :=
  { range := ⟨0, (visPrefix vis).length + mid.length + 27 + T.length + body.length⟩
    asyncToken := none
    constToken := none
    visibility := vis.map fun v => ⟨⟨0, v.length⟩⟩
    paramList := some { rParen := some ⟨⟨(visPrefix vis).length + mid.length,
                          (visPrefix vis).length + mid.length + 1⟩, none⟩
                        nextSibling := some ⟨SyntaxKind.WHITESPACE,
                          ⟨(visPrefix vis).length + mid.length + 1,
                           (visPrefix vis).length + mid.length + 2⟩⟩ }
    retType := some (desugaredSigRetType vis mid T outTy) }

/-- Buffer: `[V ]async <mid>)<body>`, with no return-type clause. -/
def asyncSigNoRetText (vis : Option Str) (mid body : Str) : Str :=
  visPrefix vis ++ "async ".data ++ mid ++ ")".data ++ body

/-- View of `asyncSigNoRetText vis mid body` (`bodySib` is the param
list's next sibling element within `body`, unread by the desugar
direction). -/
def asyncSigNoRetFn (vis : Option Str) (mid body : Str) (bodySib : Option SibElem) : Fn :=
  { range := ⟨0, (visPrefix vis).length + 7 + mid.length + body.length⟩
    asyncToken := some ⟨⟨(visPrefix vis).length, (visPrefix vis).length + 5⟩,
      some ⟨SyntaxKind.WHITESPACE,
        ⟨(visPrefix vis).length + 5, (visPrefix vis).length + 6⟩⟩⟩
    constToken := none
    visibility := vis.map fun v => ⟨⟨0, v.length⟩⟩
    paramList := some { rParen := some ⟨⟨(visPrefix vis).length + 6 + mid.length,
                          (visPrefix vis).length + 7 + mid.length⟩, none⟩
                        nextSibling := bodySib }
    retType := none }

/-- Buffer: `[V ]<mid>) -> impl Future<Output = ()><body>`, the
desugared form of `asyncSigNoRetText`. -/
def desugaredUnitSigText (vis : Option Str) (mid body : Str) : Str :=
  visPrefix vis ++ mid ++ ")".data ++ " -> impl Future<Output = ()>".data ++ body

/-- The return-type clause view of `desugaredUnitSigText`: the clause
starts at the arrow; the output type is the zero-field tuple `()`. -/
def desugaredUnitSigRetType (vis : Option Str) (mid : Str) : RetType :=
  { range := ⟨(visPrefix vis).length + mid.length + 2,
      (visPrefix vis).length + mid.length + 29⟩
    ty := some (AstTy.implTraitType
      (some [TypeBound.mk (some (AstTy.pathType
        (some (futurePathOf (AstTy.tupleType []
          ⟨(visPrefix vis).length + mid.length + 26,
           (visPrefix vis).length + mid.length + 28⟩ "()".data)))
        ⟨(visPrefix vis).length + mid.length + 10,
         (visPrefix vis).length + mid.length + 29⟩
        "Future<Output = ()>".data))])
      ⟨(visPrefix vis).length + mid.length + 5,
       (visPrefix vis).length + mid.length + 29⟩
      "impl Future<Output = ()>".data) }

/-- View of `desugaredUnitSigText vis mid body`: the closing paren right
after `mid` with a one-space whitespace run after it, then the
return-type clause `desugaredUnitSigRetType`. -/
def desugaredUnitSigFn (vis : Option Str) (mid body : Str) : Fn :=
  { range := ⟨0, (visPrefix vis).length + mid.length + 29 + body.length⟩
    asyncToken := none
    constToken := none
    visibility := vis.map fun v => ⟨⟨0, v.length⟩⟩
    paramList := some { rParen := some ⟨⟨(visPrefix vis).length + mid.length,
                          (visPrefix vis).length + mid.length + 1⟩, none⟩
                        nextSibling := some ⟨SyntaxKind.WHITESPACE,
                          ⟨(visPrefix vis).length + mid.length + 1,
                           (visPrefix vis).length + mid.length + 2⟩⟩ }
    retType := some (desugaredUnitSigRetType vis mid) }

/-! ### Further inputs and expected plans, for concrete instantiations -/

/-- The sugar plan for `implUnitFn`: delete `[8,36)` (whitespace plus
return clause), insert `async ` at the function start. -/
def implUnitAssist : Assist :=
  { id := "sugar_impl_future_into_async"
    label := "Convert `impl Future` into async"
    target := ⟨0, 39⟩
    edits := [EditOp.delete ⟨8, 36⟩, EditOp.insert 0 "async ".data] }

/-- The sugar plan for `pubUnsafeFn`: replace the impl-trait span
`[30,57)` with `usize`, insert ` async` after the visibility (offset 10). -/
def pubUnsafeAssist : Assist :=
  { id := "sugar_impl_future_into_async"
    label := "Convert `impl Future` into async"
    target := ⟨0, 58⟩
    edits := [EditOp.replace ⟨30, 57⟩ "usize".data, EditOp.insert 10 " async".data] }

/-- The desugar plan for `asyncUsizeFn`: delete `[0,6)` (`async` plus
whitespace), replace the result-type span `[18,23)`. -/
def asyncUsizeAssist : Assist :=
  { id := "desugar_async_into_impl_future"
    label := "Convert async into `impl Future`"
    target := ⟨0, 24⟩
    edits := [EditOp.delete ⟨0, 6⟩,
              EditOp.replace ⟨18, 23⟩ "impl Future<Output = usize>".data] }

/-- The desugar plan for `asyncNoRetFn`: delete `[0,6)`, insert the
synthesized clause after the closing paren (offset 14). -/
def asyncNoRetAssist : Assist :=
  { id := "desugar_async_into_impl_future"
    label := "Convert async into `impl Future`"
    target := ⟨0, 17⟩
    edits := [EditOp.delete ⟨0, 6⟩,
              EditOp.insert 14 " -> impl Future<Output = ()>".data] }

/-- A context over `debugBoundFn` whose resolver fails on every path. -/
def noResolveCtx : AssistContext :=
  { findFnAtOffset := some debugBoundFn
    resolveTrait := fun _ => none
    scopeOf := fun _ => some 0
    coreFutureFuture := fun _ => some 0 }

/-- A context over `debugBoundFn` whose resolver yields trait `1` while
the registry's canonical deferred-computation trait is `0`: a same-named
look-alike, distinguished by definition identity. -/
def wrongTraitCtx : AssistContext :=
  { findFnAtOffset := some debugBoundFn
    resolveTrait := fun _ => some 1
    scopeOf := fun _ => some 0
    coreFutureFuture := fun _ => some 0 }

/-- A context over `asyncUsizeFn` with a dead resolver and registry. -/
def deadResolverAsyncCtx : AssistContext :=
  { findFnAtOffset := some asyncUsizeFn
    resolveTrait := fun _ => none
    scopeOf := fun _ => none
    coreFutureFuture := fun _ => none }

/-- A path whose last segment's first generic argument is not an
associated-type binding. -/
def otherArgPath : Path :=
  Path.mk [PathSegment.mk (some (GenericArgList.mk [GenericArg.otherArg]))]

/-- A function whose return type's main bound carries `otherArgPath`:
the first generic argument is not an output binding. -/
def otherArgFn : Fn :=
  { range := ⟨0, 35⟩
    asyncToken := none
    constToken := none
    visibility := none
    paramList := some { rParen := some ⟨⟨7, 8⟩, none⟩
                        nextSibling := some ⟨SyntaxKind.WHITESPACE, ⟨8, 9⟩⟩ }
    retType := some { range := ⟨9, 30⟩
                      ty := some (AstTy.implTraitType
                        (some [TypeBound.mk (some (AstTy.pathType (some otherArgPath)
                          ⟨17, 30⟩ "Future<usize>".data))])
                        ⟨12, 30⟩ "impl Future<usize>".data) } }

/-- A function carrying a `const` qualifier (and a future return type). -/
def constFn : Fn :=
  { range := ⟨0, 40⟩
    asyncToken := none
    constToken := some ⟨⟨0, 5⟩, some ⟨SyntaxKind.WHITESPACE, ⟨5, 6⟩⟩⟩
    visibility := none
    paramList := some { rParen := some ⟨⟨13, 14⟩, none⟩
                        nextSibling := some ⟨SyntaxKind.WHITESPACE, ⟨14, 15⟩⟩ }
    retType := some { range := ⟨15, 40⟩, ty := some pubUnsafeImplTy } }

/-- A function whose declared return type is a plain path type, not an
opaque-bounded type. -/
def plainRetFn : Fn :=
  { range := ⟨0, 18⟩
    asyncToken := none
    constToken := none
    visibility := none
    paramList := some { rParen := some ⟨⟨7, 8⟩, none⟩
                        nextSibling := some ⟨SyntaxKind.WHITESPACE, ⟨8, 9⟩⟩ }
    retType := some { range := ⟨9, 17⟩
                      ty := some (AstTy.pathType (some simplePath) ⟨12, 17⟩ "usize".data) } }

/-- An async function view with no param list. -/
def noParamsFn : Fn :=
  { range := ⟨0, 17⟩
    asyncToken := some ⟨⟨0, 5⟩, some ⟨SyntaxKind.WHITESPACE, ⟨5, 6⟩⟩⟩
    constToken := none
    visibility := none
    paramList := none
    retType := none }

/-- An async function view whose param list has no locatable closing
paren. -/
def noRParenFn : Fn :=
  { range := ⟨0, 17⟩
    asyncToken := some ⟨⟨0, 5⟩, some ⟨SyntaxKind.WHITESPACE, ⟨5, 6⟩⟩⟩
    constToken := none
    visibility := none
    paramList := some { rParen := none
                        nextSibling := some ⟨SyntaxKind.WHITESPACE, ⟨14, 15⟩⟩ }
    retType := none }

/-- An async function view whose return-type clause has a malformed type
expression (`ty()` fails). -/
def malformedRetFn : Fn :=
  { range := ⟨0, 20⟩
    asyncToken := some ⟨⟨0, 5⟩, some ⟨SyntaxKind.WHITESPACE, ⟨5, 6⟩⟩⟩
    constToken := none
    visibility := none
    paramList := some { rParen := some ⟨⟨13, 14⟩, none⟩
                        nextSibling := some ⟨SyntaxKind.WHITESPACE, ⟨14, 15⟩⟩ }
    retType := some { range := ⟨15, 20⟩, ty := none } }

/-- The sugar plan for `debugBoundFn`: replace the impl-trait span
`[12,47)` (both bounds) with `usize`, insert `async ` at the start. -/
def debugBoundAssist : Assist :=
  { id := "sugar_impl_future_into_async"
    label := "Convert `impl Future` into async"
    target := ⟨0, 48⟩
    edits := [EditOp.replace ⟨12, 47⟩ "usize".data, EditOp.insert 0 "async ".data] }

/-- A plain (non-async, non-const) function view with no return-type
clause. -/
def noRetFn : Fn :=
  { range := ⟨0, 11⟩
    asyncToken := none
    constToken := none
    visibility := none
    paramList := some { rParen := some ⟨⟨7, 8⟩, none⟩
                        nextSibling := some ⟨SyntaxKind.WHITESPACE, ⟨8, 9⟩⟩ }
    retType := none }

/-- The second (keyword-insertion) operation of the sugar plan, described
by placement rule: after the visibility with a leading space, else at the
function start with a trailing space. -/
def sugarInsertOp (function : Fn) : EditOp :=
  match function.visibility with
  | some vis => EditOp.insert vis.range.stop " async".data
  | none => EditOp.insert function.range.start "async ".data

/-- The second operation of the desugar plan, described by case: replace
the result type's span with `impl Future<Output = T>` for its verbatim
text `T`, or insert ` -> impl Future<Output = ()>` after the closing
paren. -/
def desugarSecondOp (rparen : Token) (return_type : Option AstTy) : EditOp :=
  match return_type with
  | some t => EditOp.replace t.range ("impl Future<Output = ".data ++ t.text ++ ">".data)
  | none => EditOp.insert rparen.range.stop " -> impl Future<Output = ()>".data

/-! ### Helper lemmas -/

theorem mkSugarEdits_eq (f : Fn) (rt : RetType) (ir : TextRange) (out : AstTy) :
    mkSugarEdits f rt ir out =
      [(if out.isEmptyTuple then
          EditOp.delete ⟨sugarDeleteStart f rt, rt.range.stop⟩
        else EditOp.replace ir out.text),
       sugarInsertOp f] := by
  cases out with
  | tupleType fields r s =>
    cases fields with
    | nil =>
      cases hw : f.paramList.bind fun params => following_whitespace params.nextSibling with
      | none =>
        simp [mkSugarEdits, AstTy.isEmptyTuple, sugarDeleteStart, sugarInsertOp, hw]
        cases hv : f.visibility <;> simp [hv]
      | some w =>
        simp [mkSugarEdits, AstTy.isEmptyTuple, sugarDeleteStart, sugarInsertOp, hw]
        cases hv : f.visibility <;> simp [hv]
    | cons x xs =>
      simp [mkSugarEdits, AstTy.isEmptyTuple, sugarInsertOp]
      cases hv : f.visibility <;> simp [hv]
  | pathType p r s =>
    simp [mkSugarEdits, AstTy.isEmptyTuple, sugarInsertOp]
    cases hv : f.visibility <;> simp [hv]
  | implTraitType b r s =>
    simp [mkSugarEdits, AstTy.isEmptyTuple, sugarInsertOp]
    cases hv : f.visibility <;> simp [hv]
  | otherType r s =>
    simp [mkSugarEdits, AstTy.isEmptyTuple, sugarInsertOp]
    cases hv : f.visibility <;> simp [hv]

theorem mkDesugarEdits_eq (tok rparen : Token) (ret : Option AstTy) :
    mkDesugarEdits tok rparen ret =
      [EditOp.delete (asyncDeleteRange tok), desugarSecondOp rparen ret] := by
  cases hw : following_whitespace tok.nextSibling <;> cases ret <;>
    simp [mkDesugarEdits, asyncDeleteRange, desugarSecondOp, hw]

theorem sugarCheck_eq_some_iff (ctx : AssistContext) (f : Fn) (rt : RetType)
    (ir : TextRange) (out : AstTy) :
    sugarCheck ctx = some (f, rt, ir, out) ↔
      ctx.findFnAtOffset = some f ∧ f.asyncToken = none ∧ f.retType = some rt ∧
      f.constToken = none ∧
      ∃ bounds itext p d s,
        rt.ty = some (AstTy.implTraitType (some bounds) ir itext) ∧
        pathBoundHead bounds = some p ∧
        ctx.resolveTrait p = some d ∧
        ctx.scopeOf p = some s ∧
        ctx.coreFutureFuture s = some d ∧
        unwrap_future_output p = some out := by
  constructor
  · intro h
    unfold sugarCheck at h
    repeat' split at h
    all_goals simp_all
  · rintro ⟨h1, h2, h3, h4, bounds, itext, p, d, s, h5, h6, h7, h8, h9, h10⟩
    unfold sugarCheck
    simp [h1, h2, h3, h4, h5, h6, h7, h8, h9, h10]

theorem sugar_eq_some_iff (ctx : AssistContext) (a : Assist) :
    sugar_impl_future_into_async ctx = some a ↔
      ∃ f rt ir out,
        sugarCheck ctx = some (f, rt, ir, out) ∧
        a = { id := "sugar_impl_future_into_async",
              label := "Convert `impl Future` into async",
              target := f.range,
              edits := mkSugarEdits f rt ir out } := by
  unfold sugar_impl_future_into_async
  cases h : sugarCheck ctx with
  | none => simp [h]
  | some x =>
    obtain ⟨f, rt, ir, out⟩ := x
    constructor
    · intro ha
      exact ⟨f, rt, ir, out, rfl, by simpa using ha.symm⟩
    · rintro ⟨f', rt', ir', out', hc, rfl⟩
      simp only [Option.some.injEq, Prod.mk.injEq] at hc
      obtain ⟨rfl, rfl, rfl, rfl⟩ := hc
      rfl

theorem desugar_eq_some_iff (ctx : AssistContext) (a : Assist) :
    desugar_async_into_impl_future ctx = some a ↔
      ∃ f tok pl rparen,
        ctx.findFnAtOffset = some f ∧ f.asyncToken = some tok ∧
        f.paramList = some pl ∧ pl.rParen = some rparen ∧
        ((∃ rt t, f.retType = some rt ∧ rt.ty = some t ∧
            a = { id := "desugar_async_into_impl_future",
                  label := "Convert async into `impl Future`",
                  target := f.range,
                  edits := mkDesugarEdits tok rparen (some t) }) ∨
         (f.retType = none ∧
            a = { id := "desugar_async_into_impl_future",
                  label := "Convert async into `impl Future`",
                  target := f.range,
                  edits := mkDesugarEdits tok rparen none })) := by
  constructor
  · intro h
    unfold desugar_async_into_impl_future at h
    repeat' split at h
    all_goals simp_all
  · rintro ⟨f, tok, pl, rparen, h1, h2, h3, h4, h5⟩
    unfold desugar_async_into_impl_future
    rcases h5 with ⟨rt, t, h5, h6, rfl⟩ | ⟨h5, rfl⟩ <;>
      simp [h1, h2, h3, h4, h5, *]

theorem applyOp_replace_split (t P Q R Q2 s : Str) (r : TextRange)
    (h1 : t = P ++ Q) (h2 : t = R ++ Q2)
    (hi : r.start = P.length) (hj : r.stop = R.length) :
    applyOp t (EditOp.replace r s) = P ++ s ++ Q2 := by
  have ht : t.take r.start = P := by
    rw [hi, h1]
    exact List.take_left P Q
  have hd : t.drop r.stop = Q2 := by
    rw [hj, h2]
    exact List.drop_left R Q2
  show t.take r.start ++ s ++ t.drop r.stop = P ++ s ++ Q2
  rw [ht, hd]

theorem applyOp_delete_split (t P Q R Q2 : Str) (r : TextRange)
    (h1 : t = P ++ Q) (h2 : t = R ++ Q2)
    (hi : r.start = P.length) (hj : r.stop = R.length) :
    applyOp t (EditOp.delete r) = P ++ Q2 := by
  have ht : t.take r.start = P := by
    rw [hi, h1]
    exact List.take_left P Q
  have hd : t.drop r.stop = Q2 := by
    rw [hj, h2]
    exact List.drop_left R Q2
  show t.take r.start ++ t.drop r.stop = P ++ Q2
  rw [ht, hd]

theorem applyOp_insert_split (t P Q s : Str) (i : Nat)
    (h1 : t = P ++ Q) (hi : i = P.length) :
    applyOp t (EditOp.insert i s) = P ++ s ++ Q := by
  have ht : t.take i = P := by
    rw [hi, h1]
    exact List.take_left P Q
  have hd : t.drop i = Q := by
    rw [hi, h1]
    exact List.drop_left P Q
  show t.take i ++ s ++ t.drop i = P ++ s ++ Q
  rw [ht, hd]

theorem async_kw_shuffle (X : Str) :
    " async".data ++ (" ".data ++ X) = " ".data ++ ("async ".data ++ X) := by
  rw [← List.append_assoc, ← List.append_assoc]
  rfl

theorem length_async_kw : ("async ".data : Str).length = 6 := rfl

theorem length_arrow_sep : (") -> ".data : Str).length = 5 := rfl

theorem length_impl_open : ("impl Future<Output = ".data : Str).length = 21 := rfl

theorem length_gt_ch : (">".data : Str).length = 1 := rfl

theorem length_rp_ch : (")".data : Str).length = 1 := rfl

theorem length_unit_clause : (" -> impl Future<Output = ()>".data : Str).length = 28 := rfl

theorem length_sp_ch : (" ".data : Str).length = 1 := rfl

theorem applyEdits_pair_ge (t : Str) (op1 op2 : EditOp) (h : op2.pos ≤ op1.pos) :
    applyEdits t [op1, op2] = applyOp (applyOp t op1) op2 := by
  simp [applyEdits, sortEditsDesc, insertDesc, h]

theorem applyEdits_pair_lt (t : Str) (op1 op2 : EditOp) (h : ¬ op2.pos ≤ op1.pos) :
    applyEdits t [op1, op2] = applyOp (applyOp t op2) op1 := by
  simp [applyEdits, sortEditsDesc, insertDesc, h]

theorem sugarCheck_components_unique (ctx : AssistContext) (f : Fn) (rt : RetType)
    (bounds : List TypeBound) (ir : TextRange) (itext : Str) (p : Path)
    (f' : Fn) (rt' : RetType) (ir' : TextRange) (out' : AstTy)
    (h1 : ctx.findFnAtOffset = some f) (h2 : f.retType = some rt)
    (h3 : rt.ty = some (AstTy.implTraitType (some bounds) ir itext))
    (h4 : pathBoundHead bounds = some p)
    (hc : sugarCheck ctx = some (f', rt', ir', out')) :
    f' = f ∧ rt' = rt ∧ ir' = ir ∧
    ∃ d s, ctx.resolveTrait p = some d ∧ ctx.scopeOf p = some s ∧
      ctx.coreFutureFuture s = some d ∧ unwrap_future_output p = some out' := by
  obtain ⟨g1, g2, g3, g4, bounds', itext', p', d, s, g5, g6, g7, g8, g9, g10⟩ :=
    (sugarCheck_eq_some_iff ctx f' rt' ir' out').mp hc
  rw [h1, Option.some.injEq] at g1
  subst g1
  rw [h2, Option.some.injEq] at g3
  subst g3
  rw [h3, Option.some.injEq] at g5
  injection g5 with e1 e2 e3
  injection e1 with e1
  subst e1
  subst e2
  subst e3
  rw [h4, Option.some.injEq] at g6
  subst g6
  exact ⟨rfl, rfl, rfl, d, s, g7, g8, g9, g10⟩

/-- Claim C1: for a non-async function whose return type is opaque-bounded,
the sugar check resolves the first path bound through the external
resolver and succeeds only when the resolved definition is, by definition
identity, the registry's canonical `Future` trait; it is not applicable
when the path does not resolve, or resolves to a different definition
(even a same-named one, since identity is a `TraitDef` comparison, not a
name comparison). -/
theorem sugar_canonical_future_identity :
    (∀ (ctx : AssistContext) (a : Assist), sugar_impl_future_into_async ctx = some a →
      ∃ f rt bounds ir itext p d s,
        ctx.findFnAtOffset = some f ∧ f.retType = some rt ∧
        rt.ty = some (AstTy.implTraitType (some bounds) ir itext) ∧
        pathBoundHead bounds = some p ∧
        ctx.resolveTrait p = some d ∧ ctx.scopeOf p = some s ∧
        ctx.coreFutureFuture s = some d) ∧
    (∀ (ctx : AssistContext) (f : Fn) (rt : RetType) (bounds : List TypeBound)
        (ir : TextRange) (itext : Str) (p : Path),
      ctx.findFnAtOffset = some f → f.retType = some rt →
      rt.ty = some (AstTy.implTraitType (some bounds) ir itext) →
      pathBoundHead bounds = some p → ctx.resolveTrait p = none →
      sugar_impl_future_into_async ctx = none) ∧
    (∀ (ctx : AssistContext) (f : Fn) (rt : RetType) (bounds : List TypeBound)
        (ir : TextRange) (itext : Str) (p : Path) (d d' : TraitDef) (s : ScopeId),
      ctx.findFnAtOffset = some f → f.retType = some rt →
      rt.ty = some (AstTy.implTraitType (some bounds) ir itext) →
      pathBoundHead bounds = some p → ctx.resolveTrait p = some d →
      ctx.scopeOf p = some s → ctx.coreFutureFuture s = some d' → d ≠ d' →
      sugar_impl_future_into_async ctx = none) := by
  refine ⟨?_, ?_, ?_⟩
  · intro ctx a h
    obtain ⟨f, rt, ir, out, hc, _⟩ := (sugar_eq_some_iff ctx a).mp h
    obtain ⟨h1, _, h3, _, bounds, itext, p, d, s, h5, h6, h7, h8, h9, _⟩ :=
      (sugarCheck_eq_some_iff ctx f rt ir out).mp hc
    exact ⟨f, rt, bounds, ir, itext, p, d, s, h1, h3, h5, h6, h7, h8, h9⟩
  · intro ctx f rt bounds ir itext p h1 h2 h3 h4 h5
    cases hs : sugar_impl_future_into_async ctx with
    | none => rfl
    | some a =>
      exfalso
      obtain ⟨f', rt', ir', out', hc, _⟩ := (sugar_eq_some_iff ctx a).mp hs
      obtain ⟨_, _, _, d, s, g7, _, _, _⟩ :=
        sugarCheck_components_unique ctx f rt bounds ir itext p f' rt' ir' out'
          h1 h2 h3 h4 hc
      rw [h5] at g7
      exact Option.noConfusion g7
  · intro ctx f rt bounds ir itext p d d' s h1 h2 h3 h4 h5 h6 h7 hne
    cases hs : sugar_impl_future_into_async ctx with
    | none => rfl
    | some a =>
      exfalso
      obtain ⟨f', rt', ir', out', hc, _⟩ := (sugar_eq_some_iff ctx a).mp hs
      obtain ⟨_, _, _, e, s', g7, g8, g9, _⟩ :=
        sugarCheck_components_unique ctx f rt bounds ir itext p f' rt' ir' out'
          h1 h2 h3 h4 hc
      rw [h5, Option.some.injEq] at g7
      rw [h6, Option.some.injEq] at g8
      subst g7
      subst g8
      rw [h7, Option.some.injEq] at g9
      exact hne g9.symm

/-- Claim C6: the output extractor accepts exactly a first generic
argument that is an associated-output binding: `unwrap_future_output`
succeeds iff the last segment's generic-argument list starts with an
associated-type argument carrying a type; a first argument of any other
kind yields `none`, which in turn makes the sugar check not applicable. -/
theorem unwrap_future_output_first_arg :
    (∀ (p : Path) (t : AstTy),
      unwrap_future_output p = some t ↔
        ∃ seg gal, p.segments.getLast? = some seg ∧ seg.genericArgList = some gal ∧
          gal.genericArgs.head? = some (GenericArg.assocTypeArg (some t))) ∧
    (∀ (p : Path) (seg : PathSegment) (gal : GenericArgList),
      p.segments.getLast? = some seg → seg.genericArgList = some gal →
      gal.genericArgs.head? = some GenericArg.otherArg →
      unwrap_future_output p = none) ∧
    (∀ (ctx : AssistContext) (f : Fn) (rt : RetType) (bounds : List TypeBound)
        (ir : TextRange) (itext : Str) (p : Path),
      ctx.findFnAtOffset = some f → f.retType = some rt →
      rt.ty = some (AstTy.implTraitType (some bounds) ir itext) →
      pathBoundHead bounds = some p → unwrap_future_output p = none →
      sugar_impl_future_into_async ctx = none) := by
  refine ⟨?_, ?_, ?_⟩
  · intro p t
    unfold unwrap_future_output
    cases hseg : p.segments.getLast? with
    | none => simp_all
    | some seg =>
      cases hgal : seg.genericArgList with
      | none => simp_all
      | some gal =>
        cases harg : gal.genericArgs.head? with
        | none => simp_all
        | some arg => cases arg <;> simp_all
  · intro p seg gal hseg hgal harg
    unfold unwrap_future_output
    simp [hseg, hgal, harg]
  · intro ctx f rt bounds ir itext p h1 h2 h3 h4 h5
    cases hs : sugar_impl_future_into_async ctx with
    | none => rfl
    | some a =>
      exfalso
      obtain ⟨f', rt', ir', out', hc, _⟩ := (sugar_eq_some_iff ctx a).mp hs
      obtain ⟨_, _, _, d, s, _, _, _, g10⟩ :=
        sugarCheck_components_unique ctx f rt bounds ir itext p f' rt' ir' out'
          h1 h2 h3 h4 hc
      rw [h5] at g10
      exact Option.noConfusion g10

/-- Claim C7: the sugar check is not applicable when the function is
already async, carries a `const` qualifier, has no return-type clause, or
its return type is not an opaque-bounded type with at least one bound. -/
theorem sugar_not_applicable_conditions (ctx : AssistContext) (f : Fn)
    (hf : ctx.findFnAtOffset = some f) :
    (f.asyncToken.isSome → sugar_impl_future_into_async ctx = none) ∧
    (f.constToken.isSome → sugar_impl_future_into_async ctx = none) ∧
    (f.retType = none → sugar_impl_future_into_async ctx = none) ∧
    (∀ rt, f.retType = some rt → opaqueWithBound rt.ty = false →
      sugar_impl_future_into_async ctx = none) := by
  refine ⟨?_, ?_, ?_, ?_⟩
  · intro h
    cases hs : sugar_impl_future_into_async ctx with
    | none => rfl
    | some a =>
      exfalso
      obtain ⟨f', rt', ir', out', hc, _⟩ := (sugar_eq_some_iff ctx a).mp hs
      obtain ⟨g1, g2, _⟩ := (sugarCheck_eq_some_iff ctx f' rt' ir' out').mp hc
      rw [hf, Option.some.injEq] at g1
      subst g1
      rw [g2] at h
      simp at h
  · intro h
    cases hs : sugar_impl_future_into_async ctx with
    | none => rfl
    | some a =>
      exfalso
      obtain ⟨f', rt', ir', out', hc, _⟩ := (sugar_eq_some_iff ctx a).mp hs
      obtain ⟨g1, _, _, g4, _⟩ := (sugarCheck_eq_some_iff ctx f' rt' ir' out').mp hc
      rw [hf, Option.some.injEq] at g1
      subst g1
      rw [g4] at h
      simp at h
  · intro h
    cases hs : sugar_impl_future_into_async ctx with
    | none => rfl
    | some a =>
      exfalso
      obtain ⟨f', rt', ir', out', hc, _⟩ := (sugar_eq_some_iff ctx a).mp hs
      obtain ⟨g1, _, g3, _⟩ := (sugarCheck_eq_some_iff ctx f' rt' ir' out').mp hc
      rw [hf, Option.some.injEq] at g1
      subst g1
      rw [h] at g3
      exact Option.noConfusion g3
  · intro rt hrt hop
    cases hs : sugar_impl_future_into_async ctx with
    | none => rfl
    | some a =>
      exfalso
      obtain ⟨f', rt', ir', out', hc, _⟩ := (sugar_eq_some_iff ctx a).mp hs
      obtain ⟨g1, _, g3, _, bounds', itext', p', d, s, g5, g6, _⟩ :=
        (sugarCheck_eq_some_iff ctx f' rt' ir' out').mp hc
      rw [hf, Option.some.injEq] at g1
      subst g1
      rw [hrt, Option.some.injEq] at g3
      subst g3
      cases bounds' with
      | nil => simp [pathBoundHead, pathOfBound] at g6
      | cons b bs => simp [opaqueWithBound, g5] at hop

/-- Claim C8: the desugar check is not applicable when the function lacks
an `async` qualifier, when the param list or its closing paren cannot be
located, or when a return-type clause exists with a malformed type; when
the clause is absent the check succeeds and the plan ends with the
empty-result insertion after the closing paren. -/
theorem desugar_not_applicable_conditions (ctx : AssistContext) (f : Fn)
    (hf : ctx.findFnAtOffset = some f) :
    (f.asyncToken = none → desugar_async_into_impl_future ctx = none) ∧
    (f.paramList = none → desugar_async_into_impl_future ctx = none) ∧
    (∀ pl, f.paramList = some pl → pl.rParen = none →
      desugar_async_into_impl_future ctx = none) ∧
    (∀ rt, f.retType = some rt → rt.ty = none →
      desugar_async_into_impl_future ctx = none) ∧
    (∀ tok pl rparen, f.asyncToken = some tok → f.paramList = some pl →
      pl.rParen = some rparen → f.retType = none →
      (desugar_async_into_impl_future ctx).map (fun a => a.edits.getLast?) =
        some (some (EditOp.insert rparen.range.stop
          " -> impl Future<Output = ()>".data))) := by
  refine ⟨?_, ?_, ?_, ?_, ?_⟩
  · intro h
    cases hs : desugar_async_into_impl_future ctx with
    | none => rfl
    | some a =>
      exfalso
      obtain ⟨f', tok, pl, rparen, g1, g2, _⟩ := (desugar_eq_some_iff ctx a).mp hs
      rw [hf, Option.some.injEq] at g1
      subst g1
      rw [h] at g2
      exact Option.noConfusion g2
  · intro h
    cases hs : desugar_async_into_impl_future ctx with
    | none => rfl
    | some a =>
      exfalso
      obtain ⟨f', tok, pl, rparen, g1, _, g3, _⟩ := (desugar_eq_some_iff ctx a).mp hs
      rw [hf, Option.some.injEq] at g1
      subst g1
      rw [h] at g3
      exact Option.noConfusion g3
  · intro pl hpl h
    cases hs : desugar_async_into_impl_future ctx with
    | none => rfl
    | some a =>
      exfalso
      obtain ⟨f', tok, pl', rparen, g1, _, g3, g4, _⟩ := (desugar_eq_some_iff ctx a).mp hs
      rw [hf, Option.some.injEq] at g1
      subst g1
      rw [hpl, Option.some.injEq] at g3
      subst g3
      rw [h] at g4
      exact Option.noConfusion g4
  · intro rt hrt h
    cases hs : desugar_async_into_impl_future ctx with
    | none => rfl
    | some a =>
      exfalso
      obtain ⟨f', tok, pl, rparen, g1, _, _, _, g5⟩ := (desugar_eq_some_iff ctx a).mp hs
      rw [hf, Option.some.injEq] at g1
      subst g1
      rcases g5 with ⟨rt', t, g5, g6, _⟩ | ⟨g5, _⟩
      · rw [hrt, Option.some.injEq] at g5
        subst g5
        rw [h] at g6
        exact Option.noConfusion g6
      · rw [hrt] at g5
        exact Option.noConfusion g5
  · intro tok pl rparen htok hpl hrp hret
    have hd : desugar_async_into_impl_future ctx =
        some { id := "desugar_async_into_impl_future"
               label := "Convert async into `impl Future`"
               target := f.range
               edits := mkDesugarEdits tok rparen none } :=
      (desugar_eq_some_iff ctx _).mpr
        ⟨f, tok, pl, rparen, hf, htok, hpl, hrp, Or.inr ⟨hret, rfl⟩⟩
    rw [hd]
    rw [mkDesugarEdits_eq]
    rfl

/-- Claim C2: for every applicable sugar invocation the first planned
edit depends on the extracted output type: for the zero-field tuple it
deletes the return-type clause together with the adjacent whitespace run
located after the param list (falling back to the clause alone when no
whitespace run is there); otherwise it replaces the impl-trait node's
span with the output type's verbatim source text, unmodified. -/
theorem sugar_edit_plan_by_output (ctx : AssistContext) (a : Assist) (f : Fn)
    (rt : RetType) (ir : TextRange) (out : AstTy)
    (h : sugar_impl_future_into_async ctx = some a)
    (hc : sugarCheck ctx = some (f, rt, ir, out)) :
    (out.isEmptyTuple = true →
      a.edits.head? = some (EditOp.delete ⟨sugarDeleteStart f rt, rt.range.stop⟩)) ∧
    (out.isEmptyTuple = false →
      a.edits.head? = some (EditOp.replace ir out.text)) := by
  obtain ⟨f', rt', ir', out', hc', ha⟩ := (sugar_eq_some_iff ctx a).mp h
  rw [hc] at hc'
  simp only [Option.some.injEq, Prod.mk.injEq] at hc'
  obtain ⟨rfl, rfl, rfl, rfl⟩ := hc'
  subst ha
  constructor <;> intro hout <;>
    simp [mkSugarEdits_eq, hout]

/-- Claim C3: every applicable desugar plan deletes the `async` token
together with the adjacent whitespace run (when present) and then either
replaces the result-type span with the synthesized opaque type carrying
the verbatim original result text, or, when no return-type clause exists,
inserts the arrow plus opaque type with the empty-result binding right
after the param list's closing paren. -/
theorem desugar_edit_plan_shape (ctx : AssistContext) (a : Assist) (f : Fn)
    (tok : Token) (pl : ParamList) (rparen : Token)
    (h : desugar_async_into_impl_future ctx = some a)
    (hf : ctx.findFnAtOffset = some f) (htok : f.asyncToken = some tok)
    (hpl : f.paramList = some pl) (hrp : pl.rParen = some rparen) :
    (∀ rt t, f.retType = some rt → rt.ty = some t →
      a.edits = [EditOp.delete (asyncDeleteRange tok),
                 EditOp.replace t.range
                   ("impl Future<Output = ".data ++ t.text ++ ">".data)]) ∧
    (f.retType = none →
      a.edits = [EditOp.delete (asyncDeleteRange tok),
                 EditOp.insert rparen.range.stop
                   " -> impl Future<Output = ()>".data]) := by
  obtain ⟨f', tok', pl', rparen', g1, g2, g3, g4, g5⟩ := (desugar_eq_some_iff ctx a).mp h
  rw [hf, Option.some.injEq] at g1
  subst g1
  rw [htok, Option.some.injEq] at g2
  subst g2
  rw [hpl, Option.some.injEq] at g3
  subst g3
  rw [hrp, Option.some.injEq] at g4
  subst g4
  constructor
  · intro rt t hrt hty
    rcases g5 with ⟨rt', t', k1, k2, rfl⟩ | ⟨k1, _⟩
    · rw [hrt, Option.some.injEq] at k1
      subst k1
      rw [hty, Option.some.injEq] at k2
      subst k2
      simp [mkDesugarEdits_eq, desugarSecondOp]
    · rw [k1] at hrt
      exact Option.noConfusion hrt
  · intro hret
    rcases g5 with ⟨rt', t', k1, _, _⟩ | ⟨_, rfl⟩
    · rw [hret] at k1
      exact Option.noConfusion k1
    · simp [mkDesugarEdits_eq, desugarSecondOp]

/-- Claim C4: the `async` keyword is inserted right after the visibility
with a leading space when a visibility is present, else at the very start
of the function with a trailing space; concretely,
`pub(crate) unsafe fn foo() -> impl Future<Output = usize>;` sugars to
exactly `pub(crate) async unsafe fn foo() -> usize;` (the keyword lands
before `unsafe`). -/
theorem sugar_async_insert_placement (ctx : AssistContext) (a : Assist) (f : Fn)
    (rt : RetType) (ir : TextRange) (out : AstTy)
    (h : sugar_impl_future_into_async ctx = some a)
    (hc : sugarCheck ctx = some (f, rt, ir, out)) :
    ((∀ vis, f.visibility = some vis →
        a.edits.getLast? = some (EditOp.insert vis.range.stop " async".data)) ∧
     (f.visibility = none →
        a.edits.getLast? = some (EditOp.insert f.range.start "async ".data))) ∧
    sugarResult pubUnsafeFn pubUnsafeText =
      some "pub(crate) async unsafe fn foo() -> usize;".data := by
  refine ⟨?_, rfl⟩
  obtain ⟨f', rt', ir', out', hc', ha⟩ := (sugar_eq_some_iff ctx a).mp h
  rw [hc] at hc'
  simp only [Option.some.injEq, Prod.mk.injEq] at hc'
  obtain ⟨rfl, rfl, rfl, rfl⟩ := hc'
  subst ha
  constructor
  · intro vis hvis
    simp [mkSugarEdits_eq, sugarInsertOp, hvis]
  · intro hvis
    simp [mkSugarEdits_eq, sugarInsertOp, hvis]

/-- Claim C5: the main bound is the first bound of the list whose type is
a simple path reference (lifetime and other bound kinds contribute
nothing to the selection), and every other bound is dropped:
`fn foo() -> impl Future<Output = usize> + Debug;` sugars to
`async fn foo() -> usize;` with `Debug` gone. -/
theorem sugar_first_path_bound_rest_dropped :
    (∀ (pre post : List TypeBound) (p : Path) (r : TextRange) (s : Str),
      (∀ b ∈ pre, pathOfBound b = none) →
      pathBoundHead (pre ++ TypeBound.mk (some (AstTy.pathType (some p) r s)) :: post)
        = some p) ∧
    sugarResult debugBoundFn debugBoundText = some "async fn foo() -> usize;".data := by
  constructor
  · intro pre post p r s hpre
    unfold pathBoundHead
    rw [List.filterMap_append, List.filterMap_eq_nil_iff.mpr hpre]
    simp [List.filterMap_cons, pathOfBound, TypeBound.ty]
  · rfl

/-- Claim C10: the desugar planner spells the trait as the fixed literal
`Future`, producing `impl Future<Output = T>` (or
` -> impl Future<Output = ()>` when no return type existed) regardless of
the resolver or registry: the whole assist only reads the function found
at the offset, so any two contexts agreeing on it produce identical
results. -/
theorem desugar_literal_future_fixed :
    (∀ ctx ctx' : AssistContext, ctx.findFnAtOffset = ctx'.findFnAtOffset →
      desugar_async_into_impl_future ctx = desugar_async_into_impl_future ctx') ∧
    (∀ (ctx : AssistContext) (a : Assist) (f : Fn) (rt : RetType) (t : AstTy),
      desugar_async_into_impl_future ctx = some a →
      ctx.findFnAtOffset = some f → f.retType = some rt → rt.ty = some t →
      a.edits.getLast? = some (EditOp.replace t.range
        ("impl Future<Output = ".data ++ t.text ++ ">".data))) ∧
    (∀ (ctx : AssistContext) (a : Assist) (f : Fn) (pl : ParamList) (rparen : Token),
      desugar_async_into_impl_future ctx = some a →
      ctx.findFnAtOffset = some f → f.paramList = some pl → pl.rParen = some rparen →
      f.retType = none →
      a.edits.getLast? = some (EditOp.insert rparen.range.stop
        " -> impl Future<Output = ()>".data)) := by
  refine ⟨?_, ?_, ?_⟩
  · intro ctx ctx' h
    unfold desugar_async_into_impl_future
    rw [h]
  · intro ctx a f rt t h hf hrt hty
    obtain ⟨f', tok', pl', rparen', g1, g2, g3, g4, g5⟩ := (desugar_eq_some_iff ctx a).mp h
    rw [hf, Option.some.injEq] at g1
    subst g1
    rcases g5 with ⟨rt', t', k1, k2, rfl⟩ | ⟨k1, _⟩
    · rw [hrt, Option.some.injEq] at k1
      subst k1
      rw [hty, Option.some.injEq] at k2
      subst k2
      simp [mkDesugarEdits_eq, desugarSecondOp]
    · rw [k1] at hrt
      exact Option.noConfusion hrt
  · intro ctx a f pl rparen h hf hpl hrp hret
    obtain ⟨f', tok', pl', rparen', g1, g2, g3, g4, g5⟩ := (desugar_eq_some_iff ctx a).mp h
    rw [hf, Option.some.injEq] at g1
    subst g1
    rw [hpl, Option.some.injEq] at g3
    subst g3
    rw [hrp, Option.some.injEq] at g4
    subst g4
    rcases g5 with ⟨rt', t', k1, _, _⟩ | ⟨_, rfl⟩
    · rw [hret] at k1
      exact Option.noConfusion k1
    · simp [mkDesugarEdits_eq, desugarSecondOp]

/-- Claim C9, counterexample: the input `async fn foo() -> () {}` has no
modifiers and its opaque form carries only the canonical bound, yet
desugar followed by sugar yields `async fn foo() {}`, not the original
signature text — the explicit `-> ()` clause is dropped by the sugar
direction's empty-tuple branch. -/
theorem roundtrip_unit_return_counterexample :
    desugarResult asyncUnitRetFn asyncUnitRetText = some implUnitText ∧
    sugarResult implUnitFn implUnitText = some "async fn foo() {}".data ∧
    "async fn foo() {}".data ≠ asyncUnitRetText := by
  exact ⟨rfl, rfl, by decide⟩

/-- Claim C9 (amended): over every signature in canonical single-space
form — an optional visibility text followed by `async` directly after it
(or at the start), an arbitrary stretch of further qualifiers, name,
generics and parameters up to the closing paren, an optional return type
whose text parses to anything but the zero-field tuple, and an arbitrary
tail — desugar then sugar is the identity on the signature text, both
with a return type and through the empty-result form without one; with
an explicit `-> ()` return type the round trip instead drops the clause
(see the counterexample), and sugar then desugar is not the identity
when extra trait bounds were present: the `+ Debug` bound is dropped. -/
theorem desugar_then_sugar_roundtrip_canonical
    (vis : Option Str) (mid body T : Str) (bodySib : Option SibElem)
    (mkTy : TextRange → AstTy)
    (hrange : ∀ r, (mkTy r).range = r)
    (htext : ∀ r, (mkTy r).text = T)
    (hshape : ∀ r, (mkTy r).isEmptyTuple = false) :
    desugarResult (asyncSigFn vis mid body (mkTy (asyncSigTyRange vis mid T)) T.length)
        (asyncSigText vis mid T body)
      = some (desugaredSigText vis mid T body) ∧
    sugarResult (desugaredSigFn vis mid T body (mkTy (desugaredSigTyRange vis mid T)))
        (desugaredSigText vis mid T body)
      = some (asyncSigText vis mid T body) ∧
    desugarResult (asyncSigNoRetFn vis mid body bodySib) (asyncSigNoRetText vis mid body)
      = some (desugaredUnitSigText vis mid body) ∧
    sugarResult (desugaredUnitSigFn vis mid body) (desugaredUnitSigText vis mid body)
      = some (asyncSigNoRetText vis mid body) ∧
    (sugarResult debugBoundFn debugBoundText = some asyncUsizeText ∧
     desugarResult asyncUsizeFn asyncUsizeText
       = some "fn foo() -> impl Future<Output = usize>;".data ∧
     "fn foo() -> impl Future<Output = usize>;".data ≠ debugBoundText) := by
  refine ⟨?_, ?_, ?_, ?_, ⟨rfl, rfl, by decide⟩⟩
  · have h0 : desugarResult
        (asyncSigFn vis mid body (mkTy (asyncSigTyRange vis mid T)) T.length)
        (asyncSigText vis mid T body)
        = some (applyEdits (asyncSigText vis mid T body)
            (mkDesugarEdits
              ⟨⟨(visPrefix vis).length, (visPrefix vis).length + 5⟩,
                some ⟨SyntaxKind.WHITESPACE,
                  ⟨(visPrefix vis).length + 5, (visPrefix vis).length + 6⟩⟩⟩
              ⟨⟨(visPrefix vis).length + 6 + mid.length,
                (visPrefix vis).length + 7 + mid.length⟩, none⟩
              (some (mkTy (asyncSigTyRange vis mid T))))) := rfl
    rw [h0, mkDesugarEdits_eq]
    rw [show asyncDeleteRange
          ⟨⟨(visPrefix vis).length, (visPrefix vis).length + 5⟩,
            some ⟨SyntaxKind.WHITESPACE,
              ⟨(visPrefix vis).length + 5, (visPrefix vis).length + 6⟩⟩⟩
        = (⟨(visPrefix vis).length, (visPrefix vis).length + 6⟩ : TextRange) from rfl]
    rw [show desugarSecondOp
          ⟨⟨(visPrefix vis).length + 6 + mid.length,
            (visPrefix vis).length + 7 + mid.length⟩, none⟩
          (some (mkTy (asyncSigTyRange vis mid T)))
        = EditOp.replace (mkTy (asyncSigTyRange vis mid T)).range
            ("impl Future<Output = ".data
              ++ (mkTy (asyncSigTyRange vis mid T)).text ++ ">".data) from rfl]
    rw [hrange, htext]
    rw [applyEdits_pair_lt _ _ _
      (by simp only [EditOp.pos, asyncSigTyRange]; omega)]
    rw [applyOp_replace_split (asyncSigText vis mid T body)
        (visPrefix vis ++ "async ".data ++ mid ++ ") -> ".data)
        (T ++ body)
        (visPrefix vis ++ "async ".data ++ mid ++ ") -> ".data ++ T)
        body
        ("impl Future<Output = ".data ++ T ++ ">".data)
        (asyncSigTyRange vis mid T)
        (by simp [asyncSigText, List.append_assoc])
        (by simp [asyncSigText, List.append_assoc])
        (by simp [asyncSigTyRange, List.length_append, length_async_kw,
              length_arrow_sep]; omega)
        (by simp [asyncSigTyRange, List.length_append, length_async_kw,
              length_arrow_sep]; omega)]
    rw [applyOp_delete_split
        ((visPrefix vis ++ "async ".data ++ mid ++ ") -> ".data)
          ++ ("impl Future<Output = ".data ++ T ++ ">".data) ++ body)
        (visPrefix vis)
        ("async ".data ++ (mid ++ (") -> ".data
          ++ (("impl Future<Output = ".data ++ T ++ ">".data) ++ body))))
        (visPrefix vis ++ "async ".data)
        (mid ++ (") -> ".data
          ++ (("impl Future<Output = ".data ++ T ++ ">".data) ++ body)))
        ⟨(visPrefix vis).length, (visPrefix vis).length + 6⟩
        (by simp [List.append_assoc])
        (by simp [List.append_assoc])
        rfl
        (by simp [List.length_append, length_async_kw])]
    simp [desugaredSigText, List.append_assoc]
  · cases vis with
    | none =>
      have h0 : sugarResult
          (desugaredSigFn none mid T body (mkTy (desugaredSigTyRange none mid T)))
          (desugaredSigText none mid T body)
          = some (applyEdits (desugaredSigText none mid T body)
              (mkSugarEdits
                (desugaredSigFn none mid T body (mkTy (desugaredSigTyRange none mid T)))
                (desugaredSigRetType none mid T (mkTy (desugaredSigTyRange none mid T)))
                ⟨(visPrefix none).length + mid.length + 5,
                 (visPrefix none).length + mid.length + 27 + T.length⟩
                (mkTy (desugaredSigTyRange none mid T)))) := rfl
      have hedits : mkSugarEdits
          (desugaredSigFn none mid T body (mkTy (desugaredSigTyRange none mid T)))
          (desugaredSigRetType none mid T (mkTy (desugaredSigTyRange none mid T)))
          ⟨(visPrefix none).length + mid.length + 5,
           (visPrefix none).length + mid.length + 27 + T.length⟩
          (mkTy (desugaredSigTyRange none mid T))
          = [EditOp.replace
              ⟨(visPrefix none).length + mid.length + 5,
               (visPrefix none).length + mid.length + 27 + T.length⟩ T,
             EditOp.insert 0 "async ".data] := by
        rw [mkSugarEdits_eq, hshape, htext]
        simp [show sugarInsertOp
            (desugaredSigFn none mid T body (mkTy (desugaredSigTyRange none mid T)))
            = EditOp.insert 0 "async ".data from rfl]
      rw [h0, hedits]
      rw [applyEdits_pair_ge _ _ _ (by simp only [EditOp.pos]; omega)]
      rw [applyOp_replace_split (desugaredSigText none mid T body)
          (visPrefix none ++ mid ++ ") -> ".data)
          ("impl Future<Output = ".data ++ T ++ ">".data ++ body)
          (visPrefix none ++ mid ++ ") -> ".data
            ++ "impl Future<Output = ".data ++ T ++ ">".data)
          body
          T
          ⟨(visPrefix none).length + mid.length + 5,
           (visPrefix none).length + mid.length + 27 + T.length⟩
          (by simp [desugaredSigText, List.append_assoc])
          (by simp [desugaredSigText, List.append_assoc])
          (by simp [List.length_append, length_arrow_sep]; omega)
          (by simp [List.length_append, length_arrow_sep, length_impl_open,
                length_gt_ch]; omega)]
      rw [applyOp_insert_split
          ((visPrefix none ++ mid ++ ") -> ".data) ++ T ++ body)
          []
          ((visPrefix none ++ mid ++ ") -> ".data) ++ T ++ body)
          "async ".data
          0
          (by simp)
          rfl]
      simp [asyncSigText, visPrefix, List.append_assoc]
    | some V =>
      have h0 : sugarResult
          (desugaredSigFn (some V) mid T body (mkTy (desugaredSigTyRange (some V) mid T)))
          (desugaredSigText (some V) mid T body)
          = some (applyEdits (desugaredSigText (some V) mid T body)
              (mkSugarEdits
                (desugaredSigFn (some V) mid T body
                  (mkTy (desugaredSigTyRange (some V) mid T)))
                (desugaredSigRetType (some V) mid T
                  (mkTy (desugaredSigTyRange (some V) mid T)))
                ⟨(visPrefix (some V)).length + mid.length + 5,
                 (visPrefix (some V)).length + mid.length + 27 + T.length⟩
                (mkTy (desugaredSigTyRange (some V) mid T)))) := rfl
      have hedits : mkSugarEdits
          (desugaredSigFn (some V) mid T body
            (mkTy (desugaredSigTyRange (some V) mid T)))
          (desugaredSigRetType (some V) mid T
            (mkTy (desugaredSigTyRange (some V) mid T)))
          ⟨(visPrefix (some V)).length + mid.length + 5,
           (visPrefix (some V)).length + mid.length + 27 + T.length⟩
          (mkTy (desugaredSigTyRange (some V) mid T))
          = [EditOp.replace
              ⟨(visPrefix (some V)).length + mid.length + 5,
               (visPrefix (some V)).length + mid.length + 27 + T.length⟩ T,
             EditOp.insert V.length " async".data] := by
        rw [mkSugarEdits_eq, hshape, htext]
        simp [show sugarInsertOp
            (desugaredSigFn (some V) mid T body
              (mkTy (desugaredSigTyRange (some V) mid T)))
            = EditOp.insert V.length " async".data from rfl]
      rw [h0, hedits]
      rw [applyEdits_pair_ge _ _ _
        (by simp only [EditOp.pos]
            simp [visPrefix, List.length_append, length_sp_ch]
            omega)]
      rw [applyOp_replace_split (desugaredSigText (some V) mid T body)
          (visPrefix (some V) ++ mid ++ ") -> ".data)
          ("impl Future<Output = ".data ++ T ++ ">".data ++ body)
          (visPrefix (some V) ++ mid ++ ") -> ".data
            ++ "impl Future<Output = ".data ++ T ++ ">".data)
          body
          T
          ⟨(visPrefix (some V)).length + mid.length + 5,
           (visPrefix (some V)).length + mid.length + 27 + T.length⟩
          (by simp [desugaredSigText, List.append_assoc])
          (by simp [desugaredSigText, List.append_assoc])
          (by simp [List.length_append, length_arrow_sep]; omega)
          (by simp [List.length_append, length_arrow_sep, length_impl_open,
                length_gt_ch]; omega)]
      rw [applyOp_insert_split
          ((visPrefix (some V) ++ mid ++ ") -> ".data) ++ T ++ body)
          V
          (" ".data ++ (mid ++ (") -> ".data ++ (T ++ body))))
          " async".data
          V.length
          (by simp [visPrefix, List.append_assoc])
          rfl]
      simp [asyncSigText, visPrefix, List.append_assoc, async_kw_shuffle]
  · have h0 : desugarResult (asyncSigNoRetFn vis mid body bodySib)
        (asyncSigNoRetText vis mid body)
        = some (applyEdits (asyncSigNoRetText vis mid body)
            (mkDesugarEdits
              ⟨⟨(visPrefix vis).length, (visPrefix vis).length + 5⟩,
                some ⟨SyntaxKind.WHITESPACE,
                  ⟨(visPrefix vis).length + 5, (visPrefix vis).length + 6⟩⟩⟩
              ⟨⟨(visPrefix vis).length + 6 + mid.length,
                (visPrefix vis).length + 7 + mid.length⟩, none⟩
              none)) := rfl
    rw [h0, mkDesugarEdits_eq]
    rw [show asyncDeleteRange
          ⟨⟨(visPrefix vis).length, (visPrefix vis).length + 5⟩,
            some ⟨SyntaxKind.WHITESPACE,
              ⟨(visPrefix vis).length + 5, (visPrefix vis).length + 6⟩⟩⟩
        = (⟨(visPrefix vis).length, (visPrefix vis).length + 6⟩ : TextRange) from rfl]
    rw [show desugarSecondOp
          ⟨⟨(visPrefix vis).length + 6 + mid.length,
            (visPrefix vis).length + 7 + mid.length⟩, none⟩ none
        = EditOp.insert ((visPrefix vis).length + 7 + mid.length)
            " -> impl Future<Output = ()>".data from rfl]
    rw [applyEdits_pair_lt _ _ _ (by simp only [EditOp.pos]; omega)]
    rw [applyOp_insert_split (asyncSigNoRetText vis mid body)
        (visPrefix vis ++ "async ".data ++ mid ++ ")".data)
        body
        " -> impl Future<Output = ()>".data
        ((visPrefix vis).length + 7 + mid.length)
        (by simp [asyncSigNoRetText, List.append_assoc])
        (by simp [List.length_append, length_async_kw, length_rp_ch]; omega)]
    rw [applyOp_delete_split
        ((visPrefix vis ++ "async ".data ++ mid ++ ")".data)
          ++ " -> impl Future<Output = ()>".data ++ body)
        (visPrefix vis)
        ("async ".data ++ (mid ++ (")".data
          ++ (" -> impl Future<Output = ()>".data ++ body))))
        (visPrefix vis ++ "async ".data)
        (mid ++ (")".data ++ (" -> impl Future<Output = ()>".data ++ body)))
        ⟨(visPrefix vis).length, (visPrefix vis).length + 6⟩
        (by simp [List.append_assoc])
        (by simp [List.append_assoc])
        rfl
        (by simp [List.length_append, length_async_kw])]
    simp [desugaredUnitSigText, List.append_assoc]
  · cases vis with
    | none =>
      have h0 : sugarResult (desugaredUnitSigFn none mid body)
          (desugaredUnitSigText none mid body)
          = some (applyEdits (desugaredUnitSigText none mid body)
              (mkSugarEdits (desugaredUnitSigFn none mid body)
                (desugaredUnitSigRetType none mid)
                ⟨(visPrefix none).length + mid.length + 5,
                 (visPrefix none).length + mid.length + 29⟩
                (AstTy.tupleType []
                  ⟨(visPrefix none).length + mid.length + 26,
                   (visPrefix none).length + mid.length + 28⟩ "()".data))) := rfl
      have hedits : mkSugarEdits (desugaredUnitSigFn none mid body)
          (desugaredUnitSigRetType none mid)
          ⟨(visPrefix none).length + mid.length + 5,
           (visPrefix none).length + mid.length + 29⟩
          (AstTy.tupleType []
            ⟨(visPrefix none).length + mid.length + 26,
             (visPrefix none).length + mid.length + 28⟩ "()".data)
          = [EditOp.delete
              ⟨(visPrefix none).length + mid.length + 1,
               (visPrefix none).length + mid.length + 29⟩,
             EditOp.insert 0 "async ".data] := rfl
      rw [h0, hedits]
      rw [applyEdits_pair_ge _ _ _ (by simp only [EditOp.pos]; omega)]
      rw [applyOp_delete_split (desugaredUnitSigText none mid body)
          (visPrefix none ++ mid ++ ")".data)
          (" -> impl Future<Output = ()>".data ++ body)
          (visPrefix none ++ mid ++ ")".data ++ " -> impl Future<Output = ()>".data)
          body
          ⟨(visPrefix none).length + mid.length + 1,
           (visPrefix none).length + mid.length + 29⟩
          (by simp [desugaredUnitSigText, List.append_assoc])
          (by simp [desugaredUnitSigText, List.append_assoc])
          (by simp [List.length_append, length_rp_ch]; omega)
          (by simp [List.length_append, length_rp_ch, length_unit_clause]; omega)]
      rw [applyOp_insert_split ((visPrefix none ++ mid ++ ")".data) ++ body)
          []
          ((visPrefix none ++ mid ++ ")".data) ++ body)
          "async ".data
          0
          (by simp)
          rfl]
      simp [asyncSigNoRetText, visPrefix, List.append_assoc]
    | some V =>
      have h0 : sugarResult (desugaredUnitSigFn (some V) mid body)
          (desugaredUnitSigText (some V) mid body)
          = some (applyEdits (desugaredUnitSigText (some V) mid body)
              (mkSugarEdits (desugaredUnitSigFn (some V) mid body)
                (desugaredUnitSigRetType (some V) mid)
                ⟨(visPrefix (some V)).length + mid.length + 5,
                 (visPrefix (some V)).length + mid.length + 29⟩
                (AstTy.tupleType []
                  ⟨(visPrefix (some V)).length + mid.length + 26,
                   (visPrefix (some V)).length + mid.length + 28⟩ "()".data))) := rfl
      have hedits : mkSugarEdits (desugaredUnitSigFn (some V) mid body)
          (desugaredUnitSigRetType (some V) mid)
          ⟨(visPrefix (some V)).length + mid.length + 5,
           (visPrefix (some V)).length + mid.length + 29⟩
          (AstTy.tupleType []
            ⟨(visPrefix (some V)).length + mid.length + 26,
             (visPrefix (some V)).length + mid.length + 28⟩ "()".data)
          = [EditOp.delete
              ⟨(visPrefix (some V)).length + mid.length + 1,
               (visPrefix (some V)).length + mid.length + 29⟩,
             EditOp.insert V.length " async".data] := rfl
      rw [h0, hedits]
      rw [applyEdits_pair_ge _ _ _
        (by simp only [EditOp.pos]
            simp [visPrefix, List.length_append, length_sp_ch]
            omega)]
      rw [applyOp_delete_split (desugaredUnitSigText (some V) mid body)
          (visPrefix (some V) ++ mid ++ ")".data)
          (" -> impl Future<Output = ()>".data ++ body)
          (visPrefix (some V) ++ mid ++ ")".data
            ++ " -> impl Future<Output = ()>".data)
          body
          ⟨(visPrefix (some V)).length + mid.length + 1,
           (visPrefix (some V)).length + mid.length + 29⟩
          (by simp [desugaredUnitSigText, List.append_assoc])
          (by simp [desugaredUnitSigText, List.append_assoc])
          (by simp [List.length_append, length_rp_ch]; omega)
          (by simp [List.length_append, length_rp_ch, length_unit_clause]; omega)]
      rw [applyOp_insert_split ((visPrefix (some V) ++ mid ++ ")".data) ++ body)
          V
          (" ".data ++ (mid ++ (")".data ++ body)))
          " async".data
          V.length
          (by simp [visPrefix, List.append_assoc])
          rfl]
      simp [asyncSigNoRetText, visPrefix, List.append_assoc, async_kw_shuffle]

/-- Witness for C1: over `debugBoundFn`, a context whose resolver fails
and one that resolves the bound to a non-canonical trait (`1` versus the
registry's `0`) both make the sugar assist not applicable. -/
theorem sugar_canonical_future_identity_witness :
    sugar_impl_future_into_async noResolveCtx = none ∧
    sugar_impl_future_into_async wrongTraitCtx = none :=
  ⟨sugar_canonical_future_identity.2.1 noResolveCtx _ _ _ _ _ _
      rfl rfl rfl rfl rfl,
   sugar_canonical_future_identity.2.2 wrongTraitCtx _ _ _ _ _ _ 1 0 0
      rfl rfl rfl rfl rfl rfl rfl (by decide)⟩

/-- Witness for C2: on `implUnitFn` the first planned edit deletes
`[8,36)`, on `pubUnsafeFn` it replaces `[30,57)` with `usize`. -/
theorem sugar_edit_plan_by_output_witness :
    implUnitAssist.edits.head? = some (EditOp.delete ⟨8, 36⟩) ∧
    pubUnsafeAssist.edits.head? = some (EditOp.replace ⟨30, 57⟩ "usize".data) :=
  ⟨(sugar_edit_plan_by_output (happyCtx implUnitFn) implUnitAssist _ _ _ _
      rfl rfl).1 rfl,
   (sugar_edit_plan_by_output (happyCtx pubUnsafeFn) pubUnsafeAssist _ _ _ _
      rfl rfl).2 rfl⟩

/-- Witness for C3: the desugar plans for `asyncUsizeFn` and
`asyncNoRetFn` have exactly the stated shapes. -/
theorem desugar_edit_plan_shape_witness :
    asyncUsizeAssist.edits =
      [EditOp.delete ⟨0, 6⟩, EditOp.replace ⟨18, 23⟩ "impl Future<Output = usize>".data] ∧
    asyncNoRetAssist.edits =
      [EditOp.delete ⟨0, 6⟩, EditOp.insert 14 " -> impl Future<Output = ()>".data] :=
  ⟨(desugar_edit_plan_shape (happyCtx asyncUsizeFn) asyncUsizeAssist _ _ _ _
      rfl rfl rfl rfl rfl).1 _ _ rfl rfl,
   (desugar_edit_plan_shape (happyCtx asyncNoRetFn) asyncNoRetAssist _ _ _ _
      rfl rfl rfl rfl rfl).2 rfl⟩

/-- Witness for C4: the keyword insertion lands at offset 10 (after
`pub(crate)`) for `pubUnsafeFn` and at offset 0 for `debugBoundFn`. -/
theorem sugar_async_insert_placement_witness :
    pubUnsafeAssist.edits.getLast? = some (EditOp.insert 10 " async".data) ∧
    debugBoundAssist.edits.getLast? = some (EditOp.insert 0 "async ".data) :=
  ⟨((sugar_async_insert_placement (happyCtx pubUnsafeFn) pubUnsafeAssist _ _ _ _
      rfl rfl).1).1 ⟨⟨0, 10⟩⟩ rfl,
   ((sugar_async_insert_placement (happyCtx debugBoundFn) debugBoundAssist _ _ _ _
      rfl rfl).1).2 rfl⟩

/-- Witness for C5: a leading pathless bound is skipped and the first
path bound is selected. -/
theorem sugar_first_path_bound_rest_dropped_witness :
    pathBoundHead [TypeBound.mk none,
      TypeBound.mk (some (AstTy.pathType (some simplePath) ⟨0, 0⟩ []))]
      = some simplePath :=
  sugar_first_path_bound_rest_dropped.1 [TypeBound.mk none] [] simplePath ⟨0, 0⟩ []
    (by simp [pathOfBound, TypeBound.ty])

/-- Witness for C6: a first generic argument of the wrong kind makes the
extractor fail and the sugar assist not applicable. -/
theorem unwrap_future_output_first_arg_witness :
    unwrap_future_output otherArgPath = none ∧
    sugar_impl_future_into_async (happyCtx otherArgFn) = none :=
  ⟨unwrap_future_output_first_arg.2.1 otherArgPath _ _ rfl rfl rfl,
   unwrap_future_output_first_arg.2.2 (happyCtx otherArgFn) _ _ _ _ _ _
      rfl rfl rfl rfl rfl⟩

/-- Witness for C7: the four not-applicable conditions, each on a
concrete function view. -/
theorem sugar_not_applicable_conditions_witness :
    sugar_impl_future_into_async (happyCtx asyncUsizeFn) = none ∧
    sugar_impl_future_into_async (happyCtx constFn) = none ∧
    sugar_impl_future_into_async (happyCtx noRetFn) = none ∧
    sugar_impl_future_into_async (happyCtx plainRetFn) = none :=
  ⟨(sugar_not_applicable_conditions (happyCtx asyncUsizeFn) _ rfl).1 rfl,
   (sugar_not_applicable_conditions (happyCtx constFn) _ rfl).2.1 rfl,
   (sugar_not_applicable_conditions (happyCtx noRetFn) _ rfl).2.2.1 rfl,
   (sugar_not_applicable_conditions (happyCtx plainRetFn) _ rfl).2.2.2 _ rfl rfl⟩

/-- Witness for C8: the four not-applicable conditions on concrete views,
and the successful no-return-clause case ending in the empty-result
insertion at offset 14. -/
theorem desugar_not_applicable_conditions_witness :
    desugar_async_into_impl_future (happyCtx debugBoundFn) = none ∧
    desugar_async_into_impl_future (happyCtx noParamsFn) = none ∧
    desugar_async_into_impl_future (happyCtx noRParenFn) = none ∧
    desugar_async_into_impl_future (happyCtx malformedRetFn) = none ∧
    (desugar_async_into_impl_future (happyCtx asyncNoRetFn)).map
        (fun a => a.edits.getLast?) =
      some (some (EditOp.insert 14 " -> impl Future<Output = ()>".data)) :=
  ⟨(desugar_not_applicable_conditions (happyCtx debugBoundFn) _ rfl).1 rfl,
   (desugar_not_applicable_conditions (happyCtx noParamsFn) _ rfl).2.1 rfl,
   (desugar_not_applicable_conditions (happyCtx noRParenFn) _ rfl).2.2.1 _ rfl rfl,
   (desugar_not_applicable_conditions (happyCtx malformedRetFn) _ rfl).2.2.2.1 _ rfl rfl,
   (desugar_not_applicable_conditions (happyCtx asyncNoRetFn) _ rfl).2.2.2.2 _ _ _
      rfl rfl rfl rfl⟩

/-- Witness for C10: a dead resolver does not change the desugar result,
and the synthesized texts on the two concrete plans are the fixed
literals. -/
theorem desugar_literal_future_fixed_witness :
    desugar_async_into_impl_future (happyCtx asyncUsizeFn) =
      desugar_async_into_impl_future deadResolverAsyncCtx ∧
    asyncUsizeAssist.edits.getLast? =
      some (EditOp.replace ⟨18, 23⟩ "impl Future<Output = usize>".data) ∧
    asyncNoRetAssist.edits.getLast? =
      some (EditOp.insert 14 " -> impl Future<Output = ()>".data) :=
  ⟨desugar_literal_future_fixed.1 (happyCtx asyncUsizeFn) deadResolverAsyncCtx rfl,
   desugar_literal_future_fixed.2.1 (happyCtx asyncUsizeFn) asyncUsizeAssist _ _ _
      rfl rfl rfl rfl,
   desugar_literal_future_fixed.2.2 (happyCtx asyncNoRetFn) asyncNoRetAssist _ _ _
      rfl rfl rfl rfl rfl⟩

/-- Witness for the amended C9: the round trip at the concrete signature
`pub async unsafe fn foo() -> usize {}` (visibility `pub`, an `unsafe`
qualifier, result type text `usize`) and at its no-return-type variant
`pub async unsafe fn foo() {}`. -/
theorem desugar_then_sugar_roundtrip_canonical_witness :
    desugarResult
        (asyncSigFn (some "pub".data) "unsafe fn foo(".data " {}".data
          (AstTy.pathType none ⟨29, 34⟩ "usize".data) 5)
        (asyncSigText (some "pub".data) "unsafe fn foo(".data "usize".data " {}".data)
      = some (desugaredSigText (some "pub".data) "unsafe fn foo(".data
          "usize".data " {}".data) ∧
    sugarResult
        (desugaredSigFn (some "pub".data) "unsafe fn foo(".data "usize".data " {}".data
          (AstTy.pathType none ⟨44, 49⟩ "usize".data))
        (desugaredSigText (some "pub".data) "unsafe fn foo(".data "usize".data " {}".data)
      = some (asyncSigText (some "pub".data) "unsafe fn foo(".data
          "usize".data " {}".data) ∧
    desugarResult
        (asyncSigNoRetFn (some "pub".data) "unsafe fn foo(".data " {}".data
          (some ⟨SyntaxKind.WHITESPACE, ⟨25, 26⟩⟩))
        (asyncSigNoRetText (some "pub".data) "unsafe fn foo(".data " {}".data)
      = some (desugaredUnitSigText (some "pub".data) "unsafe fn foo(".data " {}".data) ∧
    sugarResult (desugaredUnitSigFn (some "pub".data) "unsafe fn foo(".data " {}".data)
        (desugaredUnitSigText (some "pub".data) "unsafe fn foo(".data " {}".data)
      = some (asyncSigNoRetText (some "pub".data) "unsafe fn foo(".data " {}".data) := by
  have h := desugar_then_sugar_roundtrip_canonical (some "pub".data)
    "unsafe fn foo(".data " {}".data "usize".data
    (some ⟨SyntaxKind.WHITESPACE, ⟨25, 26⟩⟩)
    (fun r => AstTy.pathType none r "usize".data)
    (fun r => rfl) (fun r => rfl) (fun r => rfl)
  exact ⟨h.1, h.2.1, h.2.2.1, h.2.2.2.1⟩

end ToggleAsyncSugar
